import Mathlib

/-!
Verification of the connection-gateway implementation in `service/gate.go`
(package `service` of the `cham` repository).

The Go source is shallowly embedded below.  Machine integers (`uint32`)
are modelled as `Nat` with an explicit reduction modulo `2 ^ 32` at every
point where the Go code performs arithmetic that can wrap.  Go maps are
modelled as association lists with `mapLookup` / `mapInsert` / `mapErase`
matching Go map semantics (lookup, replacing insert, delete).  Side
effects that leave the gate state (closing a socket, starting the per
connection read loop, writing to a session, pushing a message to the
actor runtime) are recorded as an explicit list of `GateAction` values
returned next to the updated state.  Lock protected critical sections of
the Go code are modelled as atomic steps of this transition system.
-/

/-- Modulus of the Go type `uint32`: all counters in `gate.go`
(`clinetnum`, the accept-loop local `sessionId`) have this type. -/
def UINT32_MOD : Nat := 2 ^ 32

/-- Errors returned by the Go transport layer to `io.ReadFull` and to
buffered writes.  `netErr temporary` models a value implementing the
`net.Error` interface whose `Temporary()` method returns `temporary`;
`otherErr` models every error that is not a `net.Error`
(for example `io.EOF` or `io.ErrUnexpectedEOF`). -/
inductive GoErr where
  | netErr (temporary : Bool)
  | otherErr (name : String)
deriving DecidableEq

/-- A Go runtime panic.  `nilPointerDereference` models calling a method
on a nil pointer, which is what happens in `GateResponseDispatch` when
`GATES[source]` misses and returns the zero value nil. -/
inductive GoPanic where
  | nilPointerDereference
deriving DecidableEq

/-- Go map lookup `m[k]` with the comma-ok form: `none` when the key is
absent. -/
def mapLookup {α : Type} (m : List (Nat × α)) (k : Nat) : Option α :=
  match m with
  | [] => none
  | (k2, v) :: rest => if k2 = k then some v else mapLookup rest k

/-- Go map assignment `m[k] = v`: replaces the binding when the key is
present, appends it otherwise. -/
def mapInsert {α : Type} (m : List (Nat × α)) (k : Nat) (v : α) : List (Nat × α) :=
  match m with
  | [] => [(k, v)]
  | (k2, v2) :: rest => if k2 = k then (k, v) :: rest else (k2, v2) :: mapInsert rest k v

/-- Go map deletion `delete(m, k)`: removes every binding of `k`
(at most one exists in a Go map). -/
def mapErase {α : Type} (m : List (Nat × α)) (k : Nat) : List (Nat × α) :=
  match m with
  | [] => []
  | (k2, v2) :: rest => if k2 = k then mapErase rest k else (k2, v2) :: mapErase rest k

/-- State of a pooled `bufio.Writer` bound to a socket: `buffered` holds
bytes accepted but not yet flushed, `flushed` the bytes handed to the
socket, and `sinkClosed` records whether the underlying connection has
been closed (a flush to a closed connection fails). -/
structure BufWriter where
  buffered : List Nat
  flushed : List Nat
  sinkClosed : Bool
deriving DecidableEq

/-- The `Session` struct of `gate.go`: a session id, the accepted
connection (here only its open/closed status), and the buffered
read-writer checked out from the pool (only the writer half carries
state our claims observe). -/
structure Session where
  sessionid : Nat
  connOpen : Bool
  brw : BufWriter
deriving DecidableEq

/-- The `ClientMsg` struct: a session id and an opaque payload. -/
structure ClientMsg where
  session : Nat
  data : List Nat
deriving DecidableEq

/-- The `Gate` struct.  `sessionCounter` embeds the accept-loop local
variable `sessionId` of `Gate.start`; `quitClosed` records whether the
`quit` channel has been closed by `Gate.close`.  The `rwmutex` field has
no model: lock protected sections are atomic steps here. -/
structure Gate where
  clinetnum : Nat
  maxclient : Nat
  sessionCounter : Nat
  sessions : List (Nat × Session)
  quitClosed : Bool
deriving DecidableEq

/-- Observable side effects of a step of the gate, recorded in order. -/
inductive GateAction where
  /-- The accept loop called `conn.Close()` on the just-accepted
  connection because the client limit was reached. -/
  | rejectClose
  /-- `Session.Close` ran for this session id: both pooled buffered
  objects were returned to the pool and the socket was closed. -/
  | sessionClose (sessionid : Nat)
  /-- `go g.serve(session)` launched the read loop of this session. -/
  | serveStarted (sessionid : Nat)
  /-- `Session.Write` pushed these bytes towards this session. -/
  | sessionWrite (sessionid : Nat) (data : List Nat)
deriving DecidableEq

/-- `newSession` of `gate.go`: checks a reader and a writer out of the
pool, bound to `conn`.  `connOpen` is the state of the `conn` argument;
the accept loop may pass a connection it has already closed. -/
def newSession (sessionid : Nat) (connOpen : Bool) : Session :=
  { sessionid := sessionid
    connOpen := connOpen
    brw := { buffered := [], flushed := [], sinkClosed := !connOpen } }

/-- `newGate` of `gate.go` followed by `Gate.open` storing the
configured `maxclient`: zero client count, empty session map, open quit
channel, accept-loop counter at zero. -/
def newGate (maxclient : Nat) : Gate :=
  { clinetnum := 0
    maxclient := maxclient
    sessionCounter := 0
    sessions := []
    quitClosed := false }

/-- A fresh unlimited gate (`maxclient = 0`), used as the start state of
concrete traces. -/
def gate0 : Gate := newGate 0

/-- `Session.ReadFull` of `gate.go`.  The outcome of the underlying
`io.ReadFull(s.brw, buf)` call is environmental, so it is the argument:
`err` is the error component (the byte count is discarded by the Go
code, which binds it to the blank identifier).  The Go body returns the
error only when it is a `net.Error` whose `Temporary()` is false, and
returns nil in every other case, including non-`net.Error` failures. -/
def Session.ReadFull (err : Option GoErr) : Option GoErr :=
  match err with
  | some e =>
    match e with
    | GoErr.netErr temporary => if temporary then none else some e
    | GoErr.otherErr _ => none
  | none => none

/-- A write call `s.brw.Write(data)` on the buffered writer: the bytes
are stored in the buffer and the `(n, err)` result has a nil error (the
buffer absorbs the bytes; transport failures surface at flush). -/
def brwWrite (bw : BufWriter) (data : List Nat) : BufWriter × Option GoErr :=
  ({ bw with buffered := bw.buffered ++ data }, none)

/-- A flush call `s.brw.Flush()`: moves the buffered bytes to the
socket, or fails with a non-temporary network error when the socket has
already been closed. -/
def brwFlush (bw : BufWriter) : BufWriter × Option GoErr :=
  if bw.sinkClosed then
    (bw, some (GoErr.netErr false))
  else
    ({ bw with buffered := [], flushed := bw.flushed ++ bw.buffered }, none)

/-- `Session.Write` of `gate.go`:
`s.brw.Write(data); s.brw.Flush()` — both calls return errors and both
results are discarded; the function has no return value. -/
def Session.Write (s : Session) (data : List Nat) : Session :=
  let wres := brwWrite s.brw data
  let fres := brwFlush wres.1
  { s with brw := fres.1 }

/-- One iteration of the body of `Gate.start` after `listen.Accept()`
returned a new connection without error and the quit channel was not
ready: the over-capacity check closes the connection but does not leave
the iteration, then `clinetnum++`, `sid := atomic.AddUint32(&sessionId, 1)`,
`session := newSession(sid, conn)`, the insertion `g.sessions[sid] = session`
under the write lock, and `go g.serve(session)`. -/
def Gate.startStep (g : Gate) : Gate × List GateAction :=
  let rejected : Bool := (g.maxclient != 0) && decide (g.maxclient ≤ g.clinetnum)
  let rejectActs := if rejected then [GateAction.rejectClose] else []
  let clinetnum := (g.clinetnum + 1) % UINT32_MOD
  let sid := (g.sessionCounter + 1) % UINT32_MOD
  let session := newSession sid (!rejected)
  ({ g with
      clinetnum := clinetnum
      sessionCounter := sid
      sessions := mapInsert g.sessions sid session },
    rejectActs ++ [GateAction.serveStarted sid])

/-- `Gate.closeSession` of `gate.go`, the read-loop cleanup: delete the
id of the held session from the map under the write lock, then call
`s.Close()` unconditionally — whether or not the delete removed
anything. -/
def Gate.closeSession (g : Gate) (s : Session) : Gate × List GateAction :=
  ({ g with sessions := mapErase g.sessions s.sessionid },
    [GateAction.sessionClose s.sessionid])

/-- `Gate.kick` of `gate.go`: under the write lock look the id up and
delete it when present; after releasing the lock call `session.Close()`
only when the lookup succeeded. -/
def Gate.kick (g : Gate) (sessionid : Nat) : Gate × List GateAction :=
  match mapLookup g.sessions sessionid with
  | some _ =>
      ({ g with sessions := mapErase g.sessions sessionid },
        [GateAction.sessionClose sessionid])
  | none => (g, [])

/-- `Gate.Write` of `gate.go`: look the target session up under the read
lock; when present call its `Write` outside the lock (the session map
stores a pointer, so the mutated session is rebound to its key here);
when absent do nothing. -/
def Gate.Write (g : Gate) (msg : ClientMsg) : Gate × List GateAction :=
  match mapLookup g.sessions msg.session with
  | some s =>
      ({ g with sessions := mapInsert g.sessions msg.session (Session.Write s msg.data) },
        [GateAction.sessionWrite msg.session msg.data])
  | none => (g, [])

/-- `GateResponseDispatch` of `gate.go` over a registry snapshot:
`gate := GATES[source]` is not guarded by the comma-ok form, so a miss
yields the nil pointer and the following `gate.Write(msg)` call panics
with a nil pointer dereference. -/
def GateResponseDispatch (gates : List (Nat × Gate)) (source : Nat)
    (msg : ClientMsg) : Except GoPanic (Gate × List GateAction) :=
  match mapLookup gates source with
  | some gate => Except.ok (Gate.Write gate msg)
  | none => Except.error GoPanic.nilPointerDereference

/-- The operations that can act on a gate during its lifetime. -/
inductive Op where
  /-- One successful accept handled by the loop of `Gate.start`. -/
  | accept
  /-- The read loop of the given session failed and runs its cleanup. -/
  | closeSession (s : Session)
  | kick (sessionid : Nat)
  | write (msg : ClientMsg)
  /-- `Gate.close`: closes the quit channel. -/
  | close
deriving DecidableEq

/-- Apply one operation.  An accept is a no-op once the quit channel is
closed, because the loop of `Gate.start` returns instead. -/
def applyOp (g : Gate) (op : Op) : Gate × List GateAction :=
  match op with
  | Op.accept => if g.quitClosed then (g, []) else Gate.startStep g
  | Op.closeSession s => Gate.closeSession g s
  | Op.kick sessionid => Gate.kick g sessionid
  | Op.write msg => Gate.Write g msg
  | Op.close => ({ g with quitClosed := true }, [])

/-- Run a sequence of operations, keeping only the final state. -/
def applyOps (g : Gate) (ops : List Op) : Gate :=
  ops.foldl (fun g op => (applyOp g op).1) g

/-- The 2-byte big-endian header decode `binary.BigEndian.Uint16`. -/
def uint16BigEndian (b1 b0 : Nat) : Nat := b1 * 256 + b0

/-- Encoding of one inbound frame as the wire protocol demands: a 2-byte
big-endian length followed by the payload bytes. -/
def encodeFrame (p : List Nat) : List Nat :=
  (p.length / 256) :: (p.length % 256) :: p

/-- The frame-decode step of `Gate.serve`: read a 2-byte header from the
stream, interpret it big-endian as a length, then read exactly that many
payload bytes.  Returns the payload and the remaining stream, or `none`
when the stream is too short. -/
def decodeFrame (s : List Nat) : Option (List Nat × List Nat) :=
  match s with
  | b1 :: b0 :: rest =>
      let len := uint16BigEndian b1 b0
      if rest.length < len then none
      else some (rest.take len, rest.drop len)
  | _ => none

/-- True exactly on the `sessionClose` action of the given session id. -/
def isCloseOf (sessionid : Nat) : GateAction → Bool
  | GateAction.sessionClose s => s == sessionid
  | _ => false

/-- Trace of the kick-then-read-loop-cleanup execution on a gate with a
single session: the accept loop admits connection 1, an administrative
`kick(1)` removes and closes it, and afterwards the read loop of session
1 (blocked on the now closed socket) fails and runs `closeSession` on
the very same session object.  The recorded actions are collected. -/
def kickThenCleanupTrace : List GateAction :=
  let r1 := Gate.startStep gate0
  let r2 := Gate.kick r1.1 1
  let r3 := Gate.closeSession r2.1 (newSession 1 true)
  r1.2 ++ r2.2 ++ r3.2

/-- A gate exactly at its configured capacity, with the accept-loop
counter at 9. -/
def gateFull : Gate :=
  { clinetnum := 3
    maxclient := 3
    sessionCounter := 9
    sessions := []
    quitClosed := false }

/-- A fresh gate after one accepted connection (session 1 live). -/
def g1 : Gate := (Gate.startStep gate0).1

/-- A session whose underlying connection has already been closed. -/
def closedSession : Session := newSession 1 false

/-! ## Lemmas about the Go map model -/

/-- Looking up a key right after writing it yields the written value. -/
theorem mapLookup_mapInsert {α : Type} (m : List (Nat × α)) (k : Nat) (v : α) :
    mapLookup (mapInsert m k v) k = some v := by
  induction m with
  | nil => simp [mapInsert, mapLookup]
  | cons p rest ih =>
    obtain ⟨k2, v2⟩ := p
    by_cases h : k2 = k
    · simp [mapInsert, mapLookup, h]
    · simp [mapInsert, mapLookup, h, ih]

/-- Looking up a key right after deleting it misses. -/
theorem mapLookup_mapErase {α : Type} (m : List (Nat × α)) (k : Nat) :
    mapLookup (mapErase m k) k = none := by
  induction m with
  | nil => simp [mapErase, mapLookup]
  | cons p rest ih =>
    obtain ⟨k2, v2⟩ := p
    by_cases h : k2 = k
    · simp [mapErase, h, ih]
    · simp [mapErase, mapLookup, h, ih]

/-! ## Claim theorems -/

/-- Claim C1: when `maxclient` is non-zero and the current client count
is at or above the limit, the accept iteration closes the newly accepted
connection, yet still increments `clinetnum`, assigns the next session
id, inserts a `Session` built over the already-closed connection into
the sessions map, and launches its read loop — rejection does not skip
session creation. -/
theorem atCapacity_accept_still_creates_session (g : Gate)
    (h1 : g.maxclient ≠ 0) (h2 : g.maxclient ≤ g.clinetnum) :
    (Gate.startStep g).2 =
      [GateAction.rejectClose,
        GateAction.serveStarted ((g.sessionCounter + 1) % UINT32_MOD)] ∧
    (Gate.startStep g).1.clinetnum = (g.clinetnum + 1) % UINT32_MOD ∧
    mapLookup (Gate.startStep g).1.sessions ((g.sessionCounter + 1) % UINT32_MOD) =
      some (newSession ((g.sessionCounter + 1) % UINT32_MOD) false) := by
  have hb : (g.maxclient != 0) = true := by
    simp [bne_iff_ne, h1]
  have hc : decide (g.maxclient ≤ g.clinetnum) = true := decide_eq_true h2
  refine ⟨?_, ?_, ?_⟩ <;>
    simp [Gate.startStep, hb, hc, mapLookup_mapInsert]

theorem atCapacity_accept_still_creates_session_witness :
    (Gate.startStep gateFull).2 =
      [GateAction.rejectClose,
        GateAction.serveStarted ((gateFull.sessionCounter + 1) % UINT32_MOD)] ∧
    (Gate.startStep gateFull).1.clinetnum = (gateFull.clinetnum + 1) % UINT32_MOD ∧
    mapLookup (Gate.startStep gateFull).1.sessions
        ((gateFull.sessionCounter + 1) % UINT32_MOD) =
      some (newSession ((gateFull.sessionCounter + 1) % UINT32_MOD) false) :=
  atCapacity_accept_still_creates_session gateFull (by decide) (by decide)

/-- Claim C3: `Session.ReadFull` surfaces an error exactly when the
underlying read failed with a non-recoverable transport error (a
`net.Error` whose `Temporary()` is false), and in that case it surfaces
that very error; every other outcome — success, a temporary transport
error, or a failure that is not a `net.Error` — yields nil. -/
theorem readFull_error_iff_nonrecoverable (err : Option GoErr) :
    (Session.ReadFull err ≠ none ↔ err = some (GoErr.netErr false)) ∧
    (∀ e : GoErr, Session.ReadFull err = some e → err = some e) := by
  refine ⟨?_, ?_⟩
  · cases err with
    | none => simp [Session.ReadFull]
    | some e =>
      cases e with
      | netErr t => cases t <;> simp [Session.ReadFull]
      | otherErr n => simp [Session.ReadFull]
  · intro e he
    cases err with
    | none => simp [Session.ReadFull] at he
    | some e2 =>
      cases e2 with
      | netErr t =>
        cases t <;> simp [Session.ReadFull] at he
        rw [he]
      | otherErr n => simp [Session.ReadFull] at he

theorem readFull_error_iff_nonrecoverable_witness :
    Session.ReadFull (some (GoErr.netErr false)) ≠ none ∧
    Session.ReadFull (some (GoErr.netErr true)) = none :=
  ⟨(readFull_error_iff_nonrecoverable (some (GoErr.netErr false))).1.mpr rfl,
    by decide⟩

/-- Claim C5: `kick` on a present id removes the binding and emits
exactly one close of that session, after which a `Gate.Write` aimed at
the kicked id is a no-op; `kick` on an absent id changes nothing and
closes nothing. -/
theorem kick_removes_session_and_closes (g : Gate) (sid : Nat) (d : List Nat) :
    (mapLookup g.sessions sid ≠ none →
      Gate.kick g sid =
        ({ g with sessions := mapErase g.sessions sid },
          [GateAction.sessionClose sid]) ∧
      Gate.Write (Gate.kick g sid).1 { session := sid, data := d } =
        ((Gate.kick g sid).1, [])) ∧
    (mapLookup g.sessions sid = none → Gate.kick g sid = (g, [])) := by
  refine ⟨?_, ?_⟩
  · intro h
    cases heq : mapLookup g.sessions sid with
    | none => exact absurd heq h
    | some s =>
      refine ⟨by simp [Gate.kick, heq], ?_⟩
      simp [Gate.kick, heq, Gate.Write, mapLookup_mapErase]
  · intro h
    simp [Gate.kick, h]

theorem kick_removes_session_and_closes_witness :
    (Gate.kick g1 1 =
      ({ g1 with sessions := mapErase g1.sessions 1 },
        [GateAction.sessionClose 1]) ∧
    Gate.Write (Gate.kick g1 1).1 { session := 1, data := [] } =
      ((Gate.kick g1 1).1, [])) ∧
    Gate.kick g1 7 = (g1, []) :=
  ⟨(kick_removes_session_and_closes g1 1 []).1 (by decide),
    (kick_removes_session_and_closes g1 7 []).2 (by decide)⟩

/-- Claim C6: a `Gate.Write` whose target id is not in the sessions map
returns the gate completely unchanged and performs no action at all; in
particular the sessions map, `clinetnum` and every live session are
untouched and no panic occurs (the lookup uses the comma-ok form). -/
theorem write_unknown_session_noop (g : Gate) (msg : ClientMsg)
    (h : mapLookup g.sessions msg.session = none) :
    Gate.Write g msg = (g, []) := by
  simp [Gate.Write, h]

theorem write_unknown_session_noop_witness :
    Gate.Write gate0 { session := 42, data := [1, 2] } = (gate0, []) :=
  write_unknown_session_noop gate0 { session := 42, data := [1, 2] } (by decide)

/-- Claim C8: `GateResponseDispatch` does not guard the registry lookup,
so an outbound envelope for a source address with no registered gate is
never silently discarded: the unguarded `gate.Write(msg)` call panics
with a nil pointer dereference, a non-recoverable failure. -/
theorem dispatch_missing_gate_panics (gates : List (Nat × Gate))
    (source : Nat) (msg : ClientMsg)
    (h : mapLookup gates source = none) :
    GateResponseDispatch gates source msg =
      Except.error GoPanic.nilPointerDereference ∧
    ∀ r : Gate × List GateAction,
      GateResponseDispatch gates source msg ≠ Except.ok r := by
  refine ⟨by simp [GateResponseDispatch, h], ?_⟩
  intro r
  simp [GateResponseDispatch, h]

theorem dispatch_missing_gate_panics_witness :
    GateResponseDispatch [] 0 { session := 1, data := [] } =
      Except.error GoPanic.nilPointerDereference ∧
    ∀ r : Gate × List GateAction,
      GateResponseDispatch [] 0 { session := 1, data := [] } ≠ Except.ok r :=
  dispatch_missing_gate_panics [] 0 { session := 1, data := [] } (by decide)

/-- Claim C10: `Session.Write` discards the error results of both the
buffered write and the flush.  With the underlying connection already
closed, the inner flush fails with a transport error, yet
`Session.Write` returns normally — the session merely keeps the bytes
buffered — and no failure of any kind reaches the caller. -/
theorem session_write_discards_errors (s : Session) (data : List Nat)
    (h : s.brw.sinkClosed = true) :
    (brwFlush (brwWrite s.brw data).1).2 = some (GoErr.netErr false) ∧
    Session.Write s data = { s with brw := (brwWrite s.brw data).1 } := by
  refine ⟨?_, ?_⟩
  · simp [brwWrite, brwFlush, h]
  · simp [Session.Write, brwWrite, brwFlush, h]

theorem session_write_discards_errors_witness :
    (brwFlush (brwWrite closedSession.brw [7]).1).2 =
      some (GoErr.netErr false) ∧
    Session.Write closedSession [7] =
      { closedSession with brw := (brwWrite closedSession.brw [7]).1 } :=
  session_write_discards_errors closedSession [7] (by decide)

/-- Claim C4 evidence: on a gate holding the single session 1, the
sequential trace kick(1) followed by the read-loop cleanup of the same
session — the cleanup `closeSession` runs precisely because the kick
closed the socket under the blocked read — invokes `Session.Close` on
session 1 twice, because `closeSession` closes unconditionally even
though its delete removed nothing.  The pooled buffered objects of the
session are therefore returned to the pool twice. -/
theorem kick_then_cleanup_double_close :
    (kickThenCleanupTrace.filter (isCloseOf 1)).length = 2 ∧
    mapLookup
      (Gate.closeSession (Gate.kick (Gate.startStep gate0).1 1).1
        (newSession 1 true)).1.sessions 1 = none := by
  decide

/-! ## Counter arithmetic over operation sequences -/

theorem UINT32_MOD_eq : UINT32_MOD = 4294967296 := by norm_num [UINT32_MOD]

theorem applyOps_cons (g : Gate) (op : Op) (ops : List Op) :
    applyOps g (op :: ops) = applyOps (applyOp g op).1 ops := rfl

/-- Field bookkeeping of one accept iteration. -/
theorem startStep_fields (g : Gate) :
    (Gate.startStep g).1.clinetnum = (g.clinetnum + 1) % UINT32_MOD ∧
    (Gate.startStep g).1.sessionCounter = (g.sessionCounter + 1) % UINT32_MOD ∧
    (Gate.startStep g).1.quitClosed = g.quitClosed ∧
    (Gate.startStep g).1.maxclient = g.maxclient := by
  refine ⟨?_, ?_, ?_, ?_⟩ <;> simp [Gate.startStep]

/-- Running `n` accepts from a live gate whose counters are in uint32
range drives both counters to their start value plus `n`, reduced
modulo `2 ^ 32`, and preserves liveness and the configured limit. -/
theorem replicate_accept_counters :
    ∀ (n : Nat) (g : Gate), g.quitClosed = false →
      g.clinetnum < UINT32_MOD → g.sessionCounter < UINT32_MOD →
      (applyOps g (List.replicate n Op.accept)).clinetnum =
        (g.clinetnum + n) % UINT32_MOD ∧
      (applyOps g (List.replicate n Op.accept)).sessionCounter =
        (g.sessionCounter + n) % UINT32_MOD ∧
      (applyOps g (List.replicate n Op.accept)).quitClosed = false ∧
      (applyOps g (List.replicate n Op.accept)).maxclient = g.maxclient := by
  intro n
  induction n with
  | zero =>
    intro g hq hc hs
    simp [applyOps, List.replicate, Nat.mod_eq_of_lt hc, Nat.mod_eq_of_lt hs, hq]
  | succ m ih =>
    intro g hq hc hs
    have hpos : 0 < UINT32_MOD := by rw [UINT32_MOD_eq]; omega
    have hstep : applyOp g Op.accept = Gate.startStep g := by
      simp [applyOp, hq]
    obtain ⟨f1, f2, f3, f4⟩ := startStep_fields g
    have ihg := ih (Gate.startStep g).1 (by rw [f3]; exact hq)
      (by rw [f1]; exact Nat.mod_lt _ hpos)
      (by rw [f2]; exact Nat.mod_lt _ hpos)
    obtain ⟨i1, i2, i3, i4⟩ := ihg
    rw [List.replicate_succ, applyOps_cons, hstep]
    refine ⟨?_, ?_, i3, by rw [i4, f4]⟩
    · rw [i1, f1, Nat.mod_add_mod]
      congr 1
      omega
    · rw [i2, f2, Nat.mod_add_mod]
      congr 1
      omega

/-- Claim C2 (amended): no gate operation subtracts from `clinetnum` —
every operation leaves it unchanged or steps it to its successor reduced
modulo `2 ^ 32` — and therefore the count cannot decrease across an
operation as long as its value stays below the uint32 wrap point. -/
theorem clinetnum_never_decremented (g : Gate) (op : Op) :
    ((applyOp g op).1.clinetnum = g.clinetnum ∨
      (applyOp g op).1.clinetnum = (g.clinetnum + 1) % UINT32_MOD) ∧
    (g.clinetnum + 1 < UINT32_MOD →
      g.clinetnum ≤ (applyOp g op).1.clinetnum) := by
  have main : (applyOp g op).1.clinetnum = g.clinetnum ∨
      (applyOp g op).1.clinetnum = (g.clinetnum + 1) % UINT32_MOD := by
    cases op with
    | accept =>
      by_cases hq : g.quitClosed
      · left; simp [applyOp, hq]
      · right; simp [applyOp, hq, Gate.startStep]
    | closeSession s => left; simp [applyOp, Gate.closeSession]
    | kick sid =>
      left
      cases h : mapLookup g.sessions sid <;> simp [applyOp, Gate.kick, h]
    | write msg =>
      left
      cases h : mapLookup g.sessions msg.session <;>
        simp [applyOp, Gate.Write, h]
    | close => left; simp [applyOp]
  refine ⟨main, ?_⟩
  intro hlt
  rcases main with h | h
  · omega
  · rw [h, Nat.mod_eq_of_lt hlt]
    omega

theorem clinetnum_never_decremented_witness :
    gate0.clinetnum ≤ (applyOp gate0 Op.accept).1.clinetnum :=
  (clinetnum_never_decremented gate0 Op.accept).2 (by decide)

/-- Claim C2 counterexample: `clinetnum` is a uint32 and `clinetnum++`
wraps, so the count does decrease over the lifetime of a gate.  From a
fresh gate, 2 ^ 32 - 1 accepted connections drive `clinetnum` to
4294967295, and the very next accept drops it to 0. -/
theorem clinetnum_decreases_at_uint32_wrap :
    (applyOps gate0 (List.replicate (UINT32_MOD - 1) Op.accept)).clinetnum =
      UINT32_MOD - 1 ∧
    (applyOp (applyOps gate0 (List.replicate (UINT32_MOD - 1) Op.accept))
        Op.accept).1.clinetnum = 0 := by
  obtain ⟨hc, hs, hq, hm⟩ :=
    replicate_accept_counters (UINT32_MOD - 1) gate0 rfl
      (by rw [UINT32_MOD_eq]; norm_num [gate0, newGate])
      (by rw [UINT32_MOD_eq]; norm_num [gate0, newGate])
  have hc0 : gate0.clinetnum = 0 := rfl
  have hcval :
      (applyOps gate0 (List.replicate (UINT32_MOD - 1) Op.accept)).clinetnum =
        UINT32_MOD - 1 := by
    rw [hc, hc0, UINT32_MOD_eq]
  refine ⟨hcval, ?_⟩
  have hstep :
      applyOp (applyOps gate0 (List.replicate (UINT32_MOD - 1) Op.accept))
        Op.accept =
      Gate.startStep (applyOps gate0 (List.replicate (UINT32_MOD - 1) Op.accept)) := by
    simp [applyOp, hq]
  rw [hstep, (startStep_fields _).1, hcval, UINT32_MOD_eq]

/-- Claim C9 (amended): the accept-loop counter starts at 0 and is
incremented before assignment, so on a fresh unlimited gate the
(n + 1)-th accepted connection receives session id n + 1 — in particular
the first receives id 1, each accept receives the previous id plus one,
and id 0 is not assigned — as long as fewer than 2 ^ 32 connections have
been accepted; the uint32 counter wraps beyond that point. -/
theorem session_id_increment_before_assign (n : Nat)
    (h : n + 1 < UINT32_MOD) :
    (Gate.startStep (applyOps gate0 (List.replicate n Op.accept))).2 =
      [GateAction.serveStarted (n + 1)] ∧ n + 1 ≠ 0 := by
  obtain ⟨hc, hs, hq, hm⟩ :=
    replicate_accept_counters n gate0 rfl
      (by rw [UINT32_MOD_eq]; norm_num [gate0, newGate])
      (by rw [UINT32_MOD_eq]; norm_num [gate0, newGate])
  have hs0 : gate0.sessionCounter = 0 := rfl
  have hm0 : gate0.maxclient = 0 := rfl
  have hsn : (applyOps gate0 (List.replicate n Op.accept)).sessionCounter = n := by
    rw [hs, hs0, Nat.zero_add, Nat.mod_eq_of_lt (by omega)]
  have hmn : (applyOps gate0 (List.replicate n Op.accept)).maxclient = 0 := by
    rw [hm, hm0]
  refine ⟨?_, by omega⟩
  simp [Gate.startStep, hsn, hmn, Nat.mod_eq_of_lt h]

theorem session_id_increment_before_assign_witness :
    (Gate.startStep (applyOps gate0 (List.replicate 0 Op.accept))).2 =
      [GateAction.serveStarted (0 + 1)] ∧ 0 + 1 ≠ 0 :=
  session_id_increment_before_assign 0 (by decide)

/-- Claim C9 counterexample: session id 0 is assigned.  After
2 ^ 32 - 1 accepted connections the uint32 counter holds 4294967295, so
the next accepted connection is assigned id (4294967295 + 1) % 2 ^ 32 = 0:
its read loop is started under id 0 and the sessions map gains key 0. -/
theorem session_id_zero_assigned_at_wrap :
    (Gate.startStep
        (applyOps gate0 (List.replicate (UINT32_MOD - 1) Op.accept))).2 =
      [GateAction.serveStarted 0] ∧
    mapLookup
      (Gate.startStep
        (applyOps gate0 (List.replicate (UINT32_MOD - 1) Op.accept))).1.sessions
      0 = some (newSession 0 true) := by
  obtain ⟨hc, hs, hq, hm⟩ :=
    replicate_accept_counters (UINT32_MOD - 1) gate0 rfl
      (by rw [UINT32_MOD_eq]; norm_num [gate0, newGate])
      (by rw [UINT32_MOD_eq]; norm_num [gate0, newGate])
  have hs0 : gate0.sessionCounter = 0 := rfl
  have hm0 : gate0.maxclient = 0 := rfl
  have hsn :
      (applyOps gate0 (List.replicate (UINT32_MOD - 1) Op.accept)).sessionCounter =
        UINT32_MOD - 1 := by
    rw [hs, hs0, UINT32_MOD_eq]
  have hmn :
      (applyOps gate0 (List.replicate (UINT32_MOD - 1) Op.accept)).maxclient = 0 := by
    rw [hm, hm0]
  have hwrap : ((UINT32_MOD - 1) + 1) % UINT32_MOD = 0 := by
    rw [UINT32_MOD_eq]
  refine ⟨?_, ?_⟩
  · simp [Gate.startStep, hsn, hmn, hwrap]
  · simp [Gate.startStep, hsn, hmn, hwrap, mapLookup_mapInsert]

/-- Claim C7: framing round-trip.  Encoding a payload of at most 65535
bytes as its 2-byte big-endian length followed by the payload, then
running the frame-decode step of `Gate.serve`, returns exactly the
original payload with an exhausted stream, and the emitted header
consists of genuine bytes. -/
theorem frame_roundtrip (p : List Nat) (hlen : p.length ≤ 65535)
    (hbytes : ∀ b ∈ p, b < 256) :
    decodeFrame (encodeFrame p) = some (p, []) ∧
    ∀ b ∈ encodeFrame p, b < 256 := by
  refine ⟨?_, ?_⟩
  · have hval : uint16BigEndian (p.length / 256) (p.length % 256) = p.length := by
      simp only [uint16BigEndian]
      omega
    simp [decodeFrame, encodeFrame, hval]
  · intro b hb
    simp only [encodeFrame, List.mem_cons] at hb
    rcases hb with hb | hb | hb
    · subst hb; omega
    · subst hb; omega
    · exact hbytes b hb

theorem frame_roundtrip_witness :
    decodeFrame (encodeFrame [104, 101, 108, 108, 111]) =
      some ([104, 101, 108, 108, 111], []) ∧
    ∀ b ∈ encodeFrame [104, 101, 108, 108, 111], b < 256 :=
  frame_roundtrip [104, 101, 108, 108, 111] (by decide) (by decide)
